import Mathlib

/-!
Verification of the Saddl search-term-report estimation engine.

The definitions below are a shallow embedding of the client-side analysis
script: the quiz scorer (calculateQuizScore) and the report analyzer
(analyzeSearchTermReport), together with the fixed CONFIG thresholds.
Numbers are modelled as rationals; JavaScript division (which can yield
Infinity) is modelled by the JsNum type.  Raw spreadsheet cells are
modelled as a record carrying the three views the script takes of a cell:
its string form, its parseFloat value (none when NaN), and its Date value
in milliseconds (none when invalid).
-/

namespace Saddl

/-- Result of a JavaScript floating-point operation: a finite rational,
positive or negative infinity, or NaN. -/
inductive JsNum where
  | fin (q : ℚ)
  | posInf
  | negInf
  | nan
deriving DecidableEq

/-- JavaScript division a / b (b = 0 gives a signed infinity or NaN). -/
def jsDiv (a b : ℚ) : JsNum :=
  if b = 0 then
    if 0 < a then .posInf else if a < 0 then .negInf else .nan
  else .fin (a / b)

/-- JavaScript comparison x >= q for a JsNum against a finite rational. -/
def JsNum.geQ : JsNum → ℚ → Bool
  | .fin a, q => decide (q ≤ a)
  | .posInf, _ => true
  | .negInf, _ => false
  | .nan, _ => false

/-- JavaScript comparison x > q. -/
def JsNum.gtQ : JsNum → ℚ → Bool
  | .fin a, q => decide (q < a)
  | .posInf, _ => true
  | .negInf, _ => false
  | .nan, _ => false

/-- JavaScript comparison x < q. -/
def JsNum.ltQ : JsNum → ℚ → Bool
  | .fin a, q => decide (a < q)
  | .posInf, _ => false
  | .negInf, _ => true
  | .nan, _ => false

/-! CONFIG constants (source lines 1-9). -/

def HARVEST_MIN_CLICKS : ℚ := 10
def HARVEST_MIN_ORDERS : ℚ := 3
def HARVEST_MIN_SALES : ℚ := 150
def NEGATIVE_CLICKS_THRESHOLD : ℚ := 10
def NEGATIVE_SPEND_THRESHOLD : ℚ := 10
def ROAS_TARGET : ℚ := 5 / 2

/-! Header matching: getColumnIndex searches, case-insensitively, for the
first header containing an alias as a substring. -/

/-- Does the second character list start with the first? -/
def startsWithL : List Char → List Char → Bool
  | [], _ => true
  | _ :: _, [] => false
  | a :: as, b :: bs => a == b && startsWithL as bs

/-- Does the second character list contain the first as a contiguous run? -/
def containsL (pat : List Char) : List Char → Bool
  | [] => pat.isEmpty
  | c :: cs => startsWithL pat (c :: cs) || containsL pat cs

/-- The lowercased character list of a string (toLowerCase). -/
def lowerChars (s : String) : List Char := s.data.map Char.toLower

/-- h.toLowerCase().includes(name.toLowerCase()) -/
def headerMatches (h name : String) : Bool :=
  containsL (lowerChars name) (lowerChars h)

/-- First alias (in order) that matches some header; the matching header's
position (JavaScript findIndex over the header list). -/
def getColumnIndex (header : List String) : List String → Option Nat
  | [] => none
  | n :: ns =>
    match header.findIdx? (fun h => headerMatches h n) with
    | some i => some i
    | none => getColumnIndex header ns

/-- The column-index map (source lines 429-439); none models index -1. -/
structure ColIndices where
  searchTerm : Option Nat
  impressions : Option Nat
  clicks : Option Nat
  spend : Option Nat
  sales : Option Nat
  orders : Option Nat
  campaignName : Option Nat
  startDate : Option Nat
  endDate : Option Nat
deriving DecidableEq

def detectColumns (header : List String) : ColIndices :=
  { searchTerm := getColumnIndex header ["Customer Search Term", "search term", "keyword"]
    impressions := getColumnIndex header ["Impressions"]
    clicks := getColumnIndex header ["Clicks"]
    spend := getColumnIndex header ["Spend", "Cost"]
    sales := getColumnIndex header ["7 Day Total Sales", "Total Sales", "Sales"]
    orders := getColumnIndex header ["7 Day Total Orders", "Total Orders", "Orders"]
    campaignName := getColumnIndex header ["Campaign Name", "Campaign"]
    startDate := getColumnIndex header ["Start Date", "Date"]
    endDate := getColumnIndex header ["End Date"] }

/-! Raw rows.  A cell carries the script's three views of the value:
text is String(v); num is parseFloat of the cleaned text, none when the
result is NaN; date is the millisecond timestamp of new Date(text), none
when the date is invalid. -/

structure RawCell where
  text : String
  num : Option ℚ
  date : Option ℤ
deriving DecidableEq

/-- The empty-string cell produced for an out-of-range or missing index. -/
def emptyCell : RawCell := { text := "", num := none, date := none }

/-- getValue: cell at the index, or the empty string when absent. -/
def getCell (row : List RawCell) : Option Nat → RawCell
  | none => emptyCell
  | some i => row.getD i emptyCell

/-- parseFloat(...) with the trailing JavaScript-or-zero: NaN becomes 0. -/
def numOf (c : RawCell) : ℚ := c.num.getD 0

/-- Date tracking guard: the string must be nonempty and not "undefined",
and new Date must produce a valid date. -/
def dateOf (c : RawCell) : Option ℤ :=
  if c.text = "" ∨ c.text = "undefined" then none else c.date

/-- A parsed report row (source lines 488-497). -/
structure PerformanceRecord where
  searchTerm : String
  impressions : ℚ
  clicks : ℚ
  spend : ℚ
  sales : ℚ
  orders : ℚ
  campaignName : String
  roas : JsNum
deriving DecidableEq

/-- Build the record pushed for an accepted row; the roas field is the
script's sales > 0 ? sales / spend : 0. -/
def mkRecord (idx : ColIndices) (row : List RawCell) : PerformanceRecord :=
  let clicks := numOf (getCell row idx.clicks)
  let spend := numOf (getCell row idx.spend)
  let sales := numOf (getCell row idx.sales)
  let orders := numOf (getCell row idx.orders)
  { searchTerm := (getCell row idx.searchTerm).text
    impressions := numOf (getCell row idx.impressions)
    clicks := clicks
    spend := spend
    sales := sales
    orders := orders
    campaignName := (getCell row idx.campaignName).text
    roas := if 0 < sales then jsDiv sales spend else .fin 0 }

/-- Accumulator of the row loop (source lines 448-453). -/
structure ParseState where
  searchTerms : List PerformanceRecord
  totalSpend : ℚ
  totalSales : ℚ
  totalClicks : ℚ
  minStartDate : Option ℤ
  maxEndDate : Option ℤ
deriving DecidableEq

def initState : ParseState :=
  { searchTerms := [], totalSpend := 0, totalSales := 0, totalClicks := 0
    minStartDate := none, maxEndDate := none }

/-- if (!minStartDate || startDate < minStartDate) minStartDate = startDate -/
def updMin (cur d : Option ℤ) : Option ℤ :=
  match d with
  | none => cur
  | some t =>
    match cur with
    | none => some t
    | some c => if t < c then some t else some c

/-- if (!maxEndDate || endDate > maxEndDate) maxEndDate = endDate -/
def updMax (cur d : Option ℤ) : Option ℤ :=
  match d with
  | none => cur
  | some t =>
    match cur with
    | none => some t
    | some c => if c < t then some t else some c

/-- One iteration of the row loop (source lines 455-503): skip empty rows,
track the date bounds for every row, then accept the row (pushing a record
and adding to the running totals) when clicks > 0 or spend > 0. -/
def stepRow (idx : ColIndices) (st : ParseState) (row : List RawCell) : ParseState :=
  if row.isEmpty then st
  else
    let clicks := numOf (getCell row idx.clicks)
    let spend := numOf (getCell row idx.spend)
    let sales := numOf (getCell row idx.sales)
    let st1 : ParseState :=
      { st with
        minStartDate := updMin st.minStartDate (dateOf (getCell row idx.startDate))
        maxEndDate := updMax st.maxEndDate (dateOf (getCell row idx.endDate)) }
    if 0 < clicks ∨ 0 < spend then
      { st1 with
        searchTerms := st1.searchTerms ++ [mkRecord idx row]
        totalSpend := st1.totalSpend + spend
        totalSales := st1.totalSales + sales
        totalClicks := st1.totalClicks + clicks }
    else st1

/-- The whole row loop, starting from the fresh accumulator. -/
def parsedState (header : List String) (rows : List (List RawCell)) : ParseState :=
  rows.foldl (stepRow (detectColumns header)) initState

/-- Math.ceil((maxEnd - minStart) / 86400000) + 1: the inclusive day span
of the report in whole days. -/
def rawDayCount (s e : ℤ) : ℤ := ⌈(((e : ℚ) - (s : ℚ)) / 86400000)⌉ + 1

/-- Date window and monthly multiplier (source lines 509-528).  A span in
(0, 365) extrapolates, a span of 365 or more resets to (30, 1); a
non-positive span keeps the computed day count with multiplier 1; missing
bounds give (30, 1). -/
def computeWindow : Option ℤ → Option ℤ → ℤ × ℚ
  | some s, some e =>
    let daysInReport : ℤ := rawDayCount s e
    if 0 < daysInReport ∧ daysInReport < 365 then
      (daysInReport, 30 / (daysInReport : ℚ))
    else if 365 ≤ daysInReport then (30, 1)
    else (daysInReport, 1)
  | _, _ => (30, 1)

/-! Classification (source lines 531-548). -/

/-- clicks >= 10 and spend >= 10 and orders == 0. -/
def isNegativeKeyword (st : PerformanceRecord) : Bool :=
  decide (NEGATIVE_CLICKS_THRESHOLD ≤ st.clicks) &&
  decide (NEGATIVE_SPEND_THRESHOLD ≤ st.spend) &&
  decide (st.orders = 0)

/-- clicks >= 10 and orders >= 3 and sales >= 150 and roas >= 2.5. -/
def isHarvest (st : PerformanceRecord) : Bool :=
  decide (HARVEST_MIN_CLICKS ≤ st.clicks) &&
  decide (HARVEST_MIN_ORDERS ≤ st.orders) &&
  decide (HARVEST_MIN_SALES ≤ st.sales) &&
  st.roas.geQ ROAS_TARGET

/-- spend > 10 and roas > 0 and roas < 2.5. -/
def isLowRoas (st : PerformanceRecord) : Bool :=
  decide ((10 : ℚ) < st.spend) && st.roas.gtQ 0 && st.roas.ltQ ROAS_TARGET

def negativeKeywords (l : List PerformanceRecord) : List PerformanceRecord :=
  l.filter isNegativeKeyword

def harvestOpportunities (l : List PerformanceRecord) : List PerformanceRecord :=
  l.filter isHarvest

def lowRoasTerms (l : List PerformanceRecord) : List PerformanceRecord :=
  l.filter isLowRoas

/-! Raw opportunity totals (source lines 551-553). -/

def negativeWaste (l : List PerformanceRecord) : ℚ :=
  ((negativeKeywords l).map (fun st => st.spend)).sum

def harvestPotential (l : List PerformanceRecord) : ℚ :=
  ((harvestOpportunities l).map (fun st => st.sales * (15 / 100))).sum

def bidWaste (l : List PerformanceRecord) : ℚ :=
  ((lowRoasTerms l).map (fun st => st.spend * (20 / 100))).sum

/-- Monthly total opportunity (source lines 556-559). -/
def monthlyTotalOpportunityQ (l : List PerformanceRecord) (mult : ℚ) : ℚ :=
  negativeWaste l * mult + harvestPotential l * mult + bidWaste l * mult

/-- opportunityPercentage = monthly opportunity / max(monthly spend, 1). -/
def opportunityPercentageQ (l : List PerformanceRecord) (totalSpend mult : ℚ) : ℚ :=
  monthlyTotalOpportunityQ l mult / max (totalSpend * mult) 1

/-- The four-segment piecewise health score, clamped to [45, 100] and
rounded (source lines 566-584; the clamp is applied before Math.round). -/
def healthScoreOfRatio (r : ℚ) : ℤ :=
  let h : ℚ :=
    if r ≤ 5 / 100 then 90 + (1 - r / (5 / 100)) * 10
    else if r ≤ 10 / 100 then 75 + (1 - (r - 5 / 100) / (5 / 100)) * 15
    else if r ≤ 20 / 100 then 60 + (1 - (r - 10 / 100) / (10 / 100)) * 15
    else max 45 (60 - min ((r - 20 / 100) * 100) 15)
  round (max (45 : ℚ) (min 100 h))

/-- One line of the opportunity breakdown (source lines 589-620). -/
structure Issue where
  title : String
  description : String
  amount : ℤ
  count : ℕ
  priority : String
  kind : String
deriving DecidableEq

/-- Build the issues list: negative-keyword and harvest issues appear when
their record sets are nonempty; the low-ROAS issue appears when the raw
(pre-extrapolation) bid waste is positive. -/
def buildIssues (l : List PerformanceRecord) (mult : ℚ) : List Issue :=
  (if negativeKeywords l ≠ [] then
    [{ title := "Zero-Conversion Keywords"
       description := "Search terms with 10+ clicks and no sales"
       amount := round (negativeWaste l * mult)
       count := (negativeKeywords l).length
       priority := "high", kind := "waste" }]
   else []) ++
  (if harvestOpportunities l ≠ [] then
    [{ title := "Harvest Opportunities"
       description := "High-performing terms ready for exact match campaigns"
       amount := round (harvestPotential l * mult)
       count := (harvestOpportunities l).length
       priority := "high", kind := "gain" }]
   else []) ++
  (if 0 < bidWaste l then
    [{ title := "Low ROAS Targets"
       description := "Keywords spending money below target ROAS of 2.5x"
       amount := round (bidWaste l * mult)
       count := (lowRoasTerms l).length
       priority := "medium", kind := "waste" }]
   else [])

/-- The value returned on success (source lines 622-636). -/
structure AnalysisResult where
  healthScore : ℤ
  totalOpportunity : ℤ
  totalsSpend : ℤ
  totalsSales : ℤ
  totalsRoas : ℚ
  validRows : ℕ
  daysInReport : ℤ
  monthlyMultiplier : ℚ
  issues : List Issue
deriving DecidableEq

/-- The user-facing failures of the analyzer. -/
inductive AnalysisError where
  | emptyOrHeaderOnly
  | missingRequiredColumns (foundColumns : String)
  | noValidRows
deriving DecidableEq

/-- Everything after the NoValidRows check, as a function of the loop
accumulator. -/
def analyzeParsed (st : ParseState) : AnalysisResult :=
  let window := computeWindow st.minStartDate st.maxEndDate
  let monthlyMultiplier := window.2
  let l := st.searchTerms
  { healthScore :=
      healthScoreOfRatio (opportunityPercentageQ l st.totalSpend monthlyMultiplier)
    totalOpportunity := round (monthlyTotalOpportunityQ l monthlyMultiplier)
    totalsSpend := round (st.totalSpend * monthlyMultiplier)
    totalsSales := round (st.totalSales * monthlyMultiplier)
    totalsRoas := if 0 < st.totalSpend then st.totalSales / st.totalSpend else 0
    validRows := l.length
    daysInReport := window.1
    monthlyMultiplier := monthlyMultiplier
    issues := buildIssues l monthlyMultiplier }

/-- The analyzer over an already-split header row and data rows (source
lines 379-637; the file-format branch that produces the header and rows is
the external file source). -/
def analyzeSearchTermReport (header : List String) (rows : List (List RawCell)) :
    Except AnalysisError AnalysisResult :=
  if rows.isEmpty then .error .emptyOrHeaderOnly
  else
    let indices := detectColumns header
    if indices.clicks = none ∨ indices.spend = none then
      .error (.missingRequiredColumns (String.intercalate ", " (header.take 10)))
    else
      let st := parsedState header rows
      if st.searchTerms = [] then .error .noValidRows
      else .ok (analyzeParsed st)

/-! The quiz scorer (source lines 174-210). -/

/-- One option of a quiz question; absent attributes model absent object
fields (undefined). -/
structure QOption where
  value : String
  midpoint : Option ℚ
  penalty : Option ℤ
  acos_midpoint : Option ℚ
  waste_factor : Option ℚ
  opportunity_factor : Option ℚ
  complexity : Option ℚ
deriving DecidableEq

/-- An option with only the given value and penalty/factor-style fields
left out. -/
def QOption.bare (v : String) : QOption :=
  { value := v, midpoint := none, penalty := none, acos_midpoint := none
    waste_factor := none, opportunity_factor := none, complexity := none }

/-- The selected options, one per question, any of which may be missing. -/
structure QuizAnswers where
  spend : Option QOption
  acos : Option QOption
  campaigns : Option QOption
  negatives : Option QOption
  harvest : Option QOption
  competitor : Option QOption
deriving DecidableEq

/-- answers.q?.attr || default (JavaScript: undefined and 0 both fall back). -/
def jsOrQ (a : Option QOption) (f : QOption → Option ℚ) (d : ℚ) : ℚ :=
  match a with
  | none => d
  | some o =>
    match f o with
    | none => d
    | some v => if v = 0 then d else v

/-- answers.q?.penalty || 0. -/
def jsOrZ (a : Option QOption) (f : QOption → Option ℤ) (d : ℤ) : ℤ :=
  match a with
  | none => d
  | some o =>
    match f o with
    | none => d
    | some v => if v = 0 then d else v

/-- One line of the quiz breakdown. -/
structure QuizIssue where
  title : String
  amount : ℤ
  priority : String
deriving DecidableEq

/-- The quiz scorer's return value. -/
structure QuizResult where
  score : ℤ
  total : ℤ
  breakdown : List QuizIssue
deriving DecidableEq

/-- calculateQuizScore (source lines 174-210): 100 plus the four penalties
clamped to [45, 100], five rounded dollar components, and the breakdown
filtered to positive amounts. -/
def calculateQuizScore (a : QuizAnswers) : QuizResult :=
  let spend := jsOrQ a.spend (fun o => o.midpoint) 3500
  let score : ℤ := 100 + jsOrZ a.acos (fun o => o.penalty) 0
    + jsOrZ a.negatives (fun o => o.penalty) 0
    + jsOrZ a.harvest (fun o => o.penalty) 0
    + jsOrZ a.competitor (fun o => o.penalty) 0
  let competitorWasteFactor := jsOrQ a.competitor (fun o => o.waste_factor) (15 / 100)
  let competitorWaste := round (spend * competitorWasteFactor * (35 / 100))
  let negativeWasteFactor := jsOrQ a.negatives (fun o => o.waste_factor) (15 / 100)
  let zeroConversionWaste := round (spend * negativeWasteFactor * (25 / 100))
  let harvestFactor := jsOrQ a.harvest (fun o => o.opportunity_factor) (15 / 100)
  let harvestGain := round (spend * harvestFactor * (35 / 100))
  let targetAcos : ℚ := 100 / ROAS_TARGET
  let currentAcos := jsOrQ a.acos (fun o => o.acos_midpoint) 30
  let quizBidWaste : ℤ :=
    if targetAcos < currentAcos then
      round (spend * (currentAcos - targetAcos) / 100 * (1 / 2))
    else 0
  let negativeGaps := round (spend * negativeWasteFactor * (10 / 100))
  { score := max 45 (min 100 score)
    total := competitorWaste + zeroConversionWaste + harvestGain + quizBidWaste + negativeGaps
    breakdown :=
      ([{ title := "Competitor ASIN Bleed", amount := competitorWaste, priority := "high" },
        { title := "Zero-Conversion Keywords", amount := zeroConversionWaste, priority := "high" },
        { title := "Missed Harvests", amount := harvestGain, priority := "high" },
        { title := "Bid Inefficiency", amount := quizBidWaste, priority := "medium" },
        { title := "Negative Gaps", amount := negativeGaps, priority := "medium" }]).filter
        (fun item => 0 < item.amount) }

/-- The campaign-count options of the questions table (source lines 36-46);
their complexity attribute is never read by calculateQuizScore. -/
def campaignsOptions : List QOption :=
  [{ QOption.bare "1-5" with complexity := some 1 },
   { QOption.bare "5-15" with complexity := some (12 / 10) },
   { QOption.bare "15-30" with complexity := some (15 / 10) },
   { QOption.bare "30-50" with complexity := some (18 / 10) },
   { QOption.bare "50+" with complexity := some 2 }]

/-! Projections used to state concrete facts about analyzer runs. -/

def resultDays : Except AnalysisError AnalysisResult → Option ℤ
  | .ok r => some r.daysInReport
  | .error _ => none

def resultIssues : Except AnalysisError AnalysisResult → Option (List Issue)
  | .ok r => some r.issues
  | .error _ => none

def resultError : Except AnalysisError AnalysisResult → Option AnalysisError
  | .ok _ => none
  | .error e => some e

attribute [local semireducible] Rat.add Rat.mul Rat.inv Rat.sub Rat.ofScientific

/-! Helper lemmas. -/

theorem round_mono_q {x y : ℚ} (h : x ≤ y) : round x ≤ round y := by
  rw [round_eq, round_eq]
  exact Int.floor_le_floor (by linarith)

theorem round_45 : round (45 : ℚ) = 45 := by
  rw [round_eq]
  norm_num

theorem round_100 : round (100 : ℚ) = 100 := by
  rw [round_eq]
  norm_num

/-- Rounding commutes with clamping to the integer interval [45, 100]. -/
theorem round_clamp_comm (h : ℚ) :
    round (max (45 : ℚ) (min 100 h)) = max 45 (min 100 (round h)) := by
  rcases le_total h 45 with h45 | h45
  · have hmin : min (100 : ℚ) h = h := min_eq_right (by linarith)
    have hmax : max (45 : ℚ) h = 45 := max_eq_left h45
    have hr : round h ≤ 45 := round_45 ▸ round_mono_q h45
    rw [hmin, hmax, round_45]
    omega
  · rcases le_total h 100 with h100 | h100
    · have hmin : min (100 : ℚ) h = h := min_eq_right h100
      have hmax : max (45 : ℚ) h = h := max_eq_right h45
      have hr1 : 45 ≤ round h := round_45 ▸ round_mono_q h45
      have hr2 : round h ≤ 100 := round_100 ▸ round_mono_q h100
      rw [hmin, hmax]
      omega
    · have hmin : min (100 : ℚ) h = 100 := min_eq_left h100
      have hr : 100 ≤ round h := round_100 ▸ round_mono_q h100
      rw [hmin, max_eq_right (by norm_num : (45 : ℚ) ≤ 100), round_100]
      omega

theorem healthScoreOfRatio_bounds (r : ℚ) :
    45 ≤ healthScoreOfRatio r ∧ healthScoreOfRatio r ≤ 100 := by
  unfold healthScoreOfRatio
  rw [round_clamp_comm]
  omega

theorem round_ge_one_of_half_le {x : ℚ} (h : 1 / 2 ≤ x) : 1 ≤ round x := by
  rw [round_eq, Int.le_floor]
  push_cast
  linarith

theorem round_nonneg_q {x : ℚ} (h : 0 ≤ x) : 0 ≤ round x := by
  rw [round_eq, Int.le_floor]
  push_cast
  linarith

/-- A nonempty list whose mapped values all reach c has mapped sum at
least c (c nonnegative). -/
theorem sum_map_ge_of_all {l : List PerformanceRecord} {f : PerformanceRecord → ℚ} {c : ℚ}
    (hc : 0 ≤ c) (hne : l ≠ []) (hall : ∀ x ∈ l, c ≤ f x) : c ≤ (l.map f).sum := by
  cases l with
  | nil => exact absurd rfl hne
  | cons a t =>
    have h1 : c ≤ f a := hall a (List.mem_cons_self a t)
    have h2 : 0 ≤ (t.map f).sum := by
      apply List.sum_nonneg
      intro x hx
      rcases List.mem_map.mp hx with ⟨y, hy, rfl⟩
      exact le_trans hc (hall y (List.mem_cons_of_mem a hy))
    simp only [List.map_cons, List.sum_cons]
    linarith

/-- The multiplier is 1 or an extrapolation 30/d with 0 < d < 365. -/
theorem window_snd_cases (a b : Option ℤ) :
    (computeWindow a b).2 = 1 ∨
    ∃ d : ℤ, 0 < d ∧ d < 365 ∧ (computeWindow a b).2 = 30 / (d : ℚ) := by
  rcases a with _ | s
  · left
    rfl
  · rcases b with _ | e
    · left
      rfl
    · simp only [computeWindow]
      split_ifs with h1 h2
      · exact Or.inr ⟨_, h1.1, h1.2, rfl⟩
      · exact Or.inl rfl
      · exact Or.inl rfl

theorem computeWindow_snd_pos (a b : Option ℤ) : 0 < (computeWindow a b).2 := by
  rcases window_snd_cases a b with h | ⟨d, hd0, _, h⟩
  · rw [h]
    norm_num
  · rw [h]
    have : (0 : ℚ) < (d : ℚ) := by exact_mod_cast hd0
    positivity

/-- Any multiplier the window can produce is at least 30/364 = 15/182. -/
theorem computeWindow_snd_ge (a b : Option ℤ) : 15 / 182 ≤ (computeWindow a b).2 := by
  rcases window_snd_cases a b with h | ⟨d, hd0, hd1, h⟩
  · rw [h]
    norm_num
  · rw [h]
    have h0 : (0 : ℚ) < (d : ℚ) := by exact_mod_cast hd0
    have h4 : (d : ℚ) ≤ 364 := by exact_mod_cast (by omega : d ≤ 364)
    rw [div_le_div_iff₀ (by norm_num) h0]
    linarith

theorem stepRow_searchTerms_cases (idx : ColIndices) (st : ParseState) (row : List RawCell) :
    (stepRow idx st row).searchTerms = st.searchTerms ∨
    (stepRow idx st row).searchTerms = st.searchTerms ++ [mkRecord idx row] := by
  by_cases h1 : row.isEmpty
  · left
    simp [stepRow, h1]
  · by_cases h2 : 0 < numOf (getCell row idx.clicks) ∨ 0 < numOf (getCell row idx.spend)
    · right
      simp [stepRow, h1, h2]
    · left
      simp [stepRow, h1, h2]

/-- Every record in the loop output is carried in from the accumulator or
built from some input row. -/
theorem mem_foldl_stepRow (idx : ColIndices) :
    ∀ (rows : List (List RawCell)) (st : ParseState) (r : PerformanceRecord),
      r ∈ (rows.foldl (stepRow idx) st).searchTerms →
      r ∈ st.searchTerms ∨ ∃ row, row ∈ rows ∧ r = mkRecord idx row
  | [], _, _, h => Or.inl h
  | row :: rows, st, r, h => by
    rcases mem_foldl_stepRow idx rows (stepRow idx st row) r h with h' | ⟨row', hm, he⟩
    · rcases stepRow_searchTerms_cases idx st row with hc | hc
      · rw [hc] at h'
        exact Or.inl h'
      · rw [hc] at h'
        rcases List.mem_append.mp h' with h1 | h1
        · exact Or.inl h1
        · exact Or.inr ⟨row, List.mem_cons_self _ _, by simpa using h1⟩
    · exact Or.inr ⟨row', List.mem_cons_of_mem _ hm, he⟩

theorem mkRecord_roas (idx : ColIndices) (row : List RawCell) :
    (mkRecord idx row).roas =
      if 0 < (mkRecord idx row).sales then
        jsDiv (mkRecord idx row).sales (mkRecord idx row).spend
      else .fin 0 := rfl

/-- The roas field of any parsed record is the script's
sales > 0 ? sales / spend : 0. -/
theorem roas_of_mem {header : List String} {rows : List (List RawCell)}
    {r : PerformanceRecord} (h : r ∈ (parsedState header rows).searchTerms) :
    r.roas = if 0 < r.sales then jsDiv r.sales r.spend else .fin 0 := by
  have h' : r ∈ (rows.foldl (stepRow (detectColumns header)) initState).searchTerms := h
  rcases mem_foldl_stepRow _ rows initState r h' with h0 | ⟨row, _, rfl⟩
  · simp [initState] at h0
  · exact mkRecord_roas _ _

/-- A successful analysis is the deterministic function of the parsed
accumulator. -/
theorem analyze_ok_eq {header : List String} {rows : List (List RawCell)}
    {res : AnalysisResult}
    (h : analyzeSearchTermReport header rows = .ok res) :
    res = analyzeParsed (parsedState header rows) := by
  by_cases h1 : rows.isEmpty
  · simp [analyzeSearchTermReport, h1] at h
  · by_cases h2 : (detectColumns header).clicks = none ∨ (detectColumns header).spend = none
    · simp [analyzeSearchTermReport, h1, h2] at h
    · by_cases h3 : (parsedState header rows).searchTerms = []
      · simp [analyzeSearchTermReport, h1, h2, h3] at h
      · simp [analyzeSearchTermReport, h1, h2, h3] at h
        exact h.symm

/-- The ROAS value the spec assigns to a record: sales / spend, or 0 when
spend is 0.  (The script instead guards on sales.) -/
def claimRoas (r : PerformanceRecord) : ℚ :=
  if r.spend = 0 then 0 else r.sales / r.spend

/-- The harvest predicate as the claim states it, over the spec's ROAS. -/
def claimHarvest (r : PerformanceRecord) : Bool :=
  decide (HARVEST_MIN_CLICKS ≤ r.clicks) && decide (HARVEST_MIN_ORDERS ≤ r.orders) &&
  decide (HARVEST_MIN_SALES ≤ r.sales) && decide (ROAS_TARGET ≤ claimRoas r)

/-- The health score as the claim words it: the same piecewise value,
rounded and then clamped to [45, 100]. -/
def claimHealthScore (r : ℚ) : ℤ :=
  let h : ℚ :=
    if r ≤ 5 / 100 then 90 + (1 - r / (5 / 100)) * 10
    else if r ≤ 10 / 100 then 75 + (1 - (r - 5 / 100) / (5 / 100)) * 15
    else if r ≤ 20 / 100 then 60 + (1 - (r - 10 / 100) / (10 / 100)) * 15
    else max 45 (60 - min ((r - 20 / 100) * 100) 15)
  max 45 (min 100 (round h))

/-- The monthly amount of the zero-conversion (negative-keyword waste)
issue, taken as 0 when the issue is absent. -/
def negIssueAmount (l : List PerformanceRecord) (mult : ℚ) : ℤ :=
  if negativeKeywords l = [] then 0 else round (negativeWaste l * mult)

/-- C1 counterexample: with header row [Clicks], the clicks field resolves
(to column 0) and only spend is unresolved, yet the analyzer raises
MissingRequiredColumns — the claim asserts the error occurs only when both
are unresolved. -/
theorem C1_counterexample :
    (detectColumns ["Clicks"]).clicks = some 0 ∧
    (detectColumns ["Clicks"]).spend = none ∧
    resultError (analyzeSearchTermReport ["Clicks"]
        [[{ text := "3", num := some 3, date := none }]]) =
      some (.missingRequiredColumns "Clicks") := by
  refine ⟨by decide, by decide, by decide⟩

/-- C2 counterexample: an accepted row with clicks 1, spend 0 and sales 5
gets ROAS +Infinity (JavaScript 5 / 0), not the 0 the claim requires for
zero spend. -/
theorem C2_counterexample :
    ((parsedState ["Clicks", "Spend", "Sales"]
        [[{ text := "1", num := some 1, date := none },
          { text := "0", num := some 0, date := none },
          { text := "5", num := some 5, date := none }]]).searchTerms.map
      (fun r => (r.spend, r.sales, r.roas))) = [(0, 5, JsNum.posInf)] ∧
    JsNum.posInf ≠ JsNum.fin 0 := by
  refine ⟨by decide, by decide⟩

/-- C3 counterexample: an accepted record with clicks 12, spend 0,
sales 200, orders 3 is classified as a harvest opportunity by the code
(stored ROAS +Infinity >= 2.5), while the claim's predicate over the
spec-defined ROAS (0 when spend is 0) rejects it. -/
theorem C3_counterexample :
    ((parsedState ["Clicks", "Spend", "Sales", "Orders"]
        [[{ text := "12", num := some 12, date := none },
          { text := "0", num := some 0, date := none },
          { text := "200", num := some 200, date := none },
          { text := "3", num := some 3, date := none }]]).searchTerms.map
      (fun r => (isHarvest r, claimHarvest r))) = [(true, false)] := by
  decide

/-- C5 counterexample: a report whose only start date is after its only
end date gives day count -8; the code keeps that value with multiplier 1,
while the claim requires the day count to be reset to 30. -/
theorem C5_counterexample :
    resultDays (analyzeSearchTermReport ["Clicks", "Spend", "Start Date", "End Date"]
      [[{ text := "1", num := some 1, date := none },
        { text := "0", num := some 0, date := none },
        { text := "d1", num := none, date := some 777600000 },
        { text := "d2", num := none, date := some 0 }]]) = some (-8) ∧
    (-8 : ℤ) ≠ 30 := by
  refine ⟨by decide, by decide⟩

/-- C7 counterexample: a spend cell parsing to -5 flows into the accepted
record unclamped, so a PerformanceRecord can carry negative spend. -/
theorem C7_counterexample :
    ((parsedState ["Clicks", "Spend"]
        [[{ text := "3", num := some 3, date := none },
          { text := "-5", num := some (-5), date := none }]]).searchTerms.map
      (fun r => r.spend)) = [-5] ∧ ¬ (0 : ℚ) ≤ (-5 : ℚ) := by
  refine ⟨by decide, by decide⟩

/-- C8 counterexample: one low-ROAS row (spend 10.4, sales 1) over a
200-day window yields monthly bid waste 0.312, which rounds to 0, yet the
Low ROAS Targets issue is still emitted — the output contains an Issue
whose amount is not positive. -/
theorem C8_counterexample :
    resultIssues (analyzeSearchTermReport
      ["Clicks", "Spend", "Sales", "Orders", "Start Date", "End Date"]
      [[{ text := "1", num := some 1, date := none },
        { text := "10.4", num := some (52 / 5), date := none },
        { text := "1", num := some 1, date := none },
        { text := "0", num := some 0, date := none },
        { text := "d1", num := none, date := some 0 },
        { text := "d2", num := none, date := some 17193600000 }]]) =
      some [{ title := "Low ROAS Targets"
              description := "Keywords spending money below target ROAS of 2.5x"
              amount := 0, count := 1, priority := "medium", kind := "waste" }] ∧
    ¬ (0 : ℤ) < 0 := by
  refine ⟨by decide, by decide⟩

/-- C4: for every successful analysis, the health score equals the
claim's four-segment piecewise function of the opportunity ratio
(monthly total opportunity over max(monthly spend, 1)), rounded and
clamped to [45, 100]. -/
theorem C4_health_score_formula (header : List String) (rows : List (List RawCell))
    (res : AnalysisResult) (h : analyzeSearchTermReport header rows = .ok res) :
    res.healthScore =
      claimHealthScore
        (opportunityPercentageQ (parsedState header rows).searchTerms
          (parsedState header rows).totalSpend
          (computeWindow (parsedState header rows).minStartDate
            (parsedState header rows).maxEndDate).2) := by
  rw [analyze_ok_eq h]
  show healthScoreOfRatio _ = claimHealthScore _
  simp only [healthScoreOfRatio, claimHealthScore]
  exact round_clamp_comm _

/-- C6: every completed analysis — report upload path and questionnaire
path alike — returns a health score in [45, 100] (an integer by type). -/
theorem C6_health_score_bounds :
    (∀ (header : List String) (rows : List (List RawCell)) (res : AnalysisResult),
      analyzeSearchTermReport header rows = .ok res →
      45 ≤ res.healthScore ∧ res.healthScore ≤ 100) ∧
    (∀ a : QuizAnswers,
      45 ≤ (calculateQuizScore a).score ∧ (calculateQuizScore a).score ≤ 100) := by
  constructor
  · intro header rows res h
    rw [analyze_ok_eq h]
    exact healthScoreOfRatio_bounds _
  · intro a
    simp only [calculateQuizScore]
    omega

theorem spend_ge_of_isNegativeKeyword {r : PerformanceRecord}
    (h : isNegativeKeyword r = true) : (10 : ℚ) ≤ r.spend := by
  simp only [isNegativeKeyword, NEGATIVE_CLICKS_THRESHOLD, NEGATIVE_SPEND_THRESHOLD,
    Bool.and_eq_true, decide_eq_true_eq] at h
  exact h.1.2

theorem sales_ge_of_isHarvest {r : PerformanceRecord}
    (h : isHarvest r = true) : (150 : ℚ) ≤ r.sales := by
  simp only [isHarvest, HARVEST_MIN_CLICKS, HARVEST_MIN_ORDERS, HARVEST_MIN_SALES,
    Bool.and_eq_true, decide_eq_true_eq] at h
  exact h.1.2

theorem negativeWaste_nonneg (l : List PerformanceRecord) : 0 ≤ negativeWaste l := by
  apply List.sum_nonneg
  intro x hx
  rcases List.mem_map.mp hx with ⟨y, hy, rfl⟩
  have h10 := spend_ge_of_isNegativeKeyword (List.mem_filter.mp hy).2
  linarith

/-- Waste of a list with one distinguished record: the record contributes
its spend exactly when it qualifies. -/
theorem negativeWaste_decomp (pre post : List PerformanceRecord) (r : PerformanceRecord) :
    negativeWaste (pre ++ r :: post) =
      negativeWaste pre + (if isNegativeKeyword r = true then r.spend else 0) +
        negativeWaste post := by
  simp only [negativeWaste, negativeKeywords, List.filter_append, List.filter_cons,
    List.map_append, List.sum_append]
  split_ifs with hp
  · simp only [List.map_cons, List.sum_cons]
    ring
  · ring

theorem negativeKeywords_decomp_mem (pre post : List PerformanceRecord)
    (r : PerformanceRecord) (hp : isNegativeKeyword r = true) :
    negativeKeywords (pre ++ r :: post) ≠ [] := by
  simp only [negativeKeywords, List.filter_append, List.filter_cons, hp, if_pos]
  simp

theorem negativeKeywords_decomp_skip (pre post : List PerformanceRecord)
    (r : PerformanceRecord) (hp : isNegativeKeyword r = false) :
    negativeKeywords (pre ++ r :: post) = negativeKeywords pre ++ negativeKeywords post := by
  simp [negativeKeywords, List.filter_append, List.filter_cons, hp]

/-- C8 (amended): every issue of the questionnaire breakdown has a
strictly positive amount, and in the report path the zero-conversion and
harvest issues always carry positive amounts; the low-ROAS issue, however,
is emitted whenever the raw (pre-extrapolation) bid waste is positive, so
its rounded monthly amount can be 0 — every emitted amount is still
nonnegative. -/
theorem C8_issue_amounts_amended :
    (∀ (header : List String) (rows : List (List RawCell)) (res : AnalysisResult),
      analyzeSearchTermReport header rows = .ok res →
      ∀ i ∈ res.issues,
        0 ≤ i.amount ∧ (i.title ≠ "Low ROAS Targets" → 0 < i.amount)) ∧
    (∀ a : QuizAnswers, ∀ i ∈ (calculateQuizScore a).breakdown, 0 < i.amount) := by
  constructor
  · intro header rows res h i hi
    rw [analyze_ok_eq h] at hi
    have hmp := computeWindow_snd_pos (parsedState header rows).minStartDate
      (parsedState header rows).maxEndDate
    have hmg := computeWindow_snd_ge (parsedState header rows).minStartDate
      (parsedState header rows).maxEndDate
    have hi' : i ∈ buildIssues (parsedState header rows).searchTerms
        (computeWindow (parsedState header rows).minStartDate
          (parsedState header rows).maxEndDate).2 := hi
    set l := (parsedState header rows).searchTerms with hl
    set mult := (computeWindow (parsedState header rows).minStartDate
      (parsedState header rows).maxEndDate).2 with hm
    simp only [buildIssues, List.mem_append] at hi'
    rcases hi' with (hi1 | hi1) | hi1
    · by_cases hc : negativeKeywords l = []
      · simp [hc] at hi1
      · simp only [ne_eq, hc, not_false_eq_true, if_true, List.mem_singleton] at hi1
        subst hi1
        have hw : (10 : ℚ) ≤ negativeWaste l := by
          apply sum_map_ge_of_all (by norm_num) hc
          intro x hx
          exact spend_ge_of_isNegativeKeyword (List.mem_filter.mp hx).2
        have hhalf : (1 / 2 : ℚ) ≤ negativeWaste l * mult := by
          calc (1 / 2 : ℚ) ≤ 10 * (15 / 182) := by norm_num
          _ ≤ negativeWaste l * mult :=
            mul_le_mul hw hmg (by norm_num) (by linarith)
        have hpos : 0 < round (negativeWaste l * mult) := round_ge_one_of_half_le hhalf
        exact ⟨le_of_lt hpos, fun _ => hpos⟩
    · by_cases hc : harvestOpportunities l = []
      · simp [hc] at hi1
      · simp only [ne_eq, hc, not_false_eq_true, if_true, List.mem_singleton] at hi1
        subst hi1
        have hw : (45 / 2 : ℚ) ≤ harvestPotential l := by
          apply sum_map_ge_of_all (by norm_num) hc
          intro x hx
          have := sales_ge_of_isHarvest (List.mem_filter.mp hx).2
          linarith
        have hhalf : (1 / 2 : ℚ) ≤ harvestPotential l * mult := by
          calc (1 / 2 : ℚ) ≤ (45 / 2) * (15 / 182) := by norm_num
          _ ≤ harvestPotential l * mult :=
            mul_le_mul hw hmg (by norm_num) (by linarith)
        have hpos : 0 < round (harvestPotential l * mult) := round_ge_one_of_half_le hhalf
        exact ⟨le_of_lt hpos, fun _ => hpos⟩
    · by_cases hc : 0 < bidWaste l
      · simp only [hc, if_true, List.mem_singleton] at hi1
        subst hi1
        refine ⟨round_nonneg_q (mul_nonneg (le_of_lt hc) (le_of_lt hmp)), fun hne => ?_⟩
        exact absurd rfl hne
      · simp [hc] at hi1
  · intro a i hi
    have hmem := List.mem_filter.mp hi
    simpa using hmem.2

/-- The zero-conversion issue of the report (12 clicks, 20 spend, no
dates): raw waste 20, multiplier 1. -/
def negIssue20 : Issue :=
  { title := "Zero-Conversion Keywords"
    description := "Search terms with 10+ clicks and no sales"
    amount := 20, count := 1, priority := "high", kind := "waste" }

/-- The competitor line of the default quiz breakdown:
round(3500 * 0.15 * 0.35) = 184. -/
def quizCompetitorIssue : QuizIssue :=
  { title := "Competitor ASIN Bleed", amount := 184, priority := "high" }

/-- C8 witness: the amended bounds at a concrete report issue and a
concrete quiz breakdown line. -/
theorem C8_issue_amounts_amended_witness :
    (0 ≤ negIssue20.amount ∧ (negIssue20.title ≠ "Low ROAS Targets" → 0 < negIssue20.amount)) ∧
    0 < quizCompetitorIssue.amount :=
  ⟨C8_issue_amounts_amended.1 ["Clicks", "Spend"]
      [[{ text := "12", num := some 12, date := none },
        { text := "20", num := some 20, date := none }]] _ rfl negIssue20 (by decide),
    C8_issue_amounts_amended.2
      { spend := none, acos := none, campaigns := none, negatives := none,
        harvest := none, competitor := none } quizCompetitorIssue (by decide)⟩

/-- C9: increasing one record's spend — its orders staying 0 and clicks
staying at or above the negative-clicks threshold, everything else fixed —
cannot decrease the zero-conversion (negative-keyword waste) issue amount,
taking the amount as 0 when the issue is absent; and the issue the
analyzer emits carries exactly that amount. -/
theorem C9_negative_waste_monotone :
    (∀ (pre post : List PerformanceRecord) (r1 r2 : PerformanceRecord) (mult : ℚ),
      0 ≤ mult → r2.clicks = r1.clicks → r2.orders = r1.orders →
      r1.orders = 0 → NEGATIVE_CLICKS_THRESHOLD ≤ r1.clicks → r1.spend ≤ r2.spend →
      negIssueAmount (pre ++ r1 :: post) mult ≤ negIssueAmount (pre ++ r2 :: post) mult) ∧
    (∀ (l : List PerformanceRecord) (mult : ℚ), negativeKeywords l ≠ [] →
      ∃ rest, buildIssues l mult =
        { title := "Zero-Conversion Keywords"
          description := "Search terms with 10+ clicks and no sales"
          amount := negIssueAmount l mult
          count := (negativeKeywords l).length
          priority := "high", kind := "waste" } :: rest) := by
  constructor
  · intro pre post r1 r2 mult hm hclicks horders ho0 hc10 hsp
    have hd1 := negativeWaste_decomp pre post r1
    have hd2 := negativeWaste_decomp pre post r2
    by_cases hp1 : isNegativeKeyword r1 = true
    · have hsp1 := spend_ge_of_isNegativeKeyword hp1
      have hp2 : isNegativeKeyword r2 = true := by
        simp only [isNegativeKeyword, NEGATIVE_CLICKS_THRESHOLD, NEGATIVE_SPEND_THRESHOLD,
          Bool.and_eq_true, decide_eq_true_eq] at hp1 ⊢
        exact ⟨⟨by rw [hclicks]; exact hp1.1.1, by linarith⟩, by rw [horders]; exact hp1.2⟩
      have hne1 := negativeKeywords_decomp_mem pre post r1 hp1
      have hne2 := negativeKeywords_decomp_mem pre post r2 hp2
      simp only [negIssueAmount, if_neg hne1, if_neg hne2]
      apply round_mono_q
      apply mul_le_mul_of_nonneg_right ?_ hm
      rw [hd1, hd2, if_pos hp1, if_pos hp2]
      linarith
    · by_cases hp2 : isNegativeKeyword r2 = true
      · have hsp2 := spend_ge_of_isNegativeKeyword hp2
        have hne2 := negativeKeywords_decomp_mem pre post r2 hp2
        have hw12 : negativeWaste (pre ++ r1 :: post) ≤ negativeWaste (pre ++ r2 :: post) := by
          rw [hd1, hd2, if_neg hp1, if_pos hp2]
          linarith
        by_cases hc : negativeKeywords (pre ++ r1 :: post) = []
        · simp only [negIssueAmount, if_pos hc, if_neg hne2]
          exact round_nonneg_q (mul_nonneg (negativeWaste_nonneg _) hm)
        · simp only [negIssueAmount, if_neg hc, if_neg hne2]
          exact round_mono_q (mul_le_mul_of_nonneg_right hw12 hm)
      · have hb1 : isNegativeKeyword r1 = false := by
          simpa using hp1
        have hb2 : isNegativeKeyword r2 = false := by
          simpa using hp2
        have he : negativeKeywords (pre ++ r1 :: post) = negativeKeywords (pre ++ r2 :: post) := by
          rw [negativeKeywords_decomp_skip pre post r1 hb1,
            negativeKeywords_decomp_skip pre post r2 hb2]
        have hwe : negativeWaste (pre ++ r1 :: post) = negativeWaste (pre ++ r2 :: post) := by
          rw [hd1, hd2, if_neg hp1, if_neg hp2]
        simp only [negIssueAmount, he, hwe]
        exact le_refl _
  · intro l mult hne
    refine ⟨(if harvestOpportunities l ≠ [] then
        [{ title := "Harvest Opportunities"
           description := "High-performing terms ready for exact match campaigns"
           amount := round (harvestPotential l * mult)
           count := (harvestOpportunities l).length
           priority := "high", kind := "gain" }]
      else []) ++
      (if 0 < bidWaste l then
        [{ title := "Low ROAS Targets"
           description := "Keywords spending money below target ROAS of 2.5x"
           amount := round (bidWaste l * mult)
           count := (lowRoasTerms l).length
           priority := "medium", kind := "waste" }]
      else []), ?_⟩
    simp only [buildIssues, negIssueAmount, ne_eq, hne, not_false_eq_true, if_true, if_neg hne]
    simp

/-- A minimal qualifying record with spend 10. -/
def monoRecA : PerformanceRecord :=
  { searchTerm := "", impressions := 0, clicks := 10, spend := 10, sales := 0,
    orders := 0, campaignName := "", roas := .fin 0 }

/-- The same record with spend raised to 20. -/
def monoRecB : PerformanceRecord :=
  { searchTerm := "", impressions := 0, clicks := 10, spend := 20, sales := 0,
    orders := 0, campaignName := "", roas := .fin 0 }

/-- C9 witness: the monotonicity at the concrete one-record lists with
spend raised from 10 to 20 and multiplier 1. -/
theorem C9_negative_waste_monotone_witness :
    negIssueAmount ([] ++ monoRecA :: []) 1 ≤ negIssueAmount ([] ++ monoRecB :: []) 1 :=
  C9_negative_waste_monotone.1 [] [] monoRecA monoRecB 1 (by norm_num) rfl rfl rfl
    (by decide) (by decide)

/-- C10: the quiz scorer never reads the campaigns answer (whose options
carry the unused complexity attribute), so two answer sets differing only
in that answer produce identical results. -/
theorem C10_campaigns_noninterference (a b : QuizAnswers)
    (hs : a.spend = b.spend) (ha : a.acos = b.acos) (hn : a.negatives = b.negatives)
    (hh : a.harvest = b.harvest) (hc : a.competitor = b.competitor) :
    calculateQuizScore a = calculateQuizScore b := by
  cases a
  cases b
  simp only at hs ha hn hh hc
  subst hs
  subst ha
  subst hn
  subst hh
  subst hc
  rfl

/-- C1 (amended): schema detection fails with MissingRequiredColumns —
whose message is the first ten detected headers joined by commas — exactly
when the clicks field or the spend field (at least one of the two) is
unresolved by alias matching; analysis proceeds only when both resolve,
with the optional sales/orders fields defaulting to zero when missing. -/
theorem C1_missing_columns_amended (header : List String) (rows : List (List RawCell))
    (hne : rows ≠ []) :
    (analyzeSearchTermReport header rows =
        .error (.missingRequiredColumns (String.intercalate ", " (header.take 10))) ↔
      (detectColumns header).clicks = none ∨ (detectColumns header).spend = none) ∧
    (∀ r ∈ (parsedState header rows).searchTerms,
      ((detectColumns header).sales = none → r.sales = 0) ∧
      ((detectColumns header).orders = none → r.orders = 0)) := by
  have hre : rows.isEmpty = false := by
    rcases rows with _ | ⟨a, t⟩
    · exact absurd rfl hne
    · rfl
  constructor
  · by_cases h2 : (detectColumns header).clicks = none ∨ (detectColumns header).spend = none
    · refine iff_of_true ?_ h2
      simp [analyzeSearchTermReport, hre, h2]
    · refine iff_of_false ?_ h2
      by_cases h3 : (parsedState header rows).searchTerms = []
      · simp [analyzeSearchTermReport, hre, h2, h3]
      · simp [analyzeSearchTermReport, hre, h2, h3]
  · intro r hr
    rcases mem_foldl_stepRow (detectColumns header) rows initState r hr with h0 | ⟨row, _, rfl⟩
    · simp [initState] at h0
    · constructor
      · intro hs
        show numOf (getCell row (detectColumns header).sales) = 0
        rw [hs]
        rfl
      · intro ho
        show numOf (getCell row (detectColumns header).orders) = 0
        rw [ho]
        rfl

/-- C1 witness: the amended characterization at the concrete header
[Clicks] (spend unresolved, so the error side of the iff holds), and the
zero-defaulting at the concrete parsed record. -/
theorem C1_missing_columns_amended_witness :
    (analyzeSearchTermReport ["Clicks"] [[{ text := "3", num := some 3, date := none }]] =
        .error (.missingRequiredColumns (String.intercalate ", " (List.take 10 ["Clicks"]))) ↔
      (detectColumns ["Clicks"]).clicks = none ∨ (detectColumns ["Clicks"]).spend = none) ∧
    (((detectColumns ["Clicks"]).sales = none →
        ({ searchTerm := "", impressions := 0, clicks := 3, spend := 0, sales := 0,
           orders := 0, campaignName := "", roas := .fin 0 } : PerformanceRecord).sales = 0) ∧
      ((detectColumns ["Clicks"]).orders = none →
        ({ searchTerm := "", impressions := 0, clicks := 3, spend := 0, sales := 0,
           orders := 0, campaignName := "", roas := .fin 0 } : PerformanceRecord).orders = 0)) :=
  ⟨(C1_missing_columns_amended ["Clicks"]
      [[{ text := "3", num := some 3, date := none }]] (by decide)).1,
    (C1_missing_columns_amended ["Clicks"]
      [[{ text := "3", num := some 3, date := none }]] (by decide)).2 _ (by decide)⟩

/-- C2 (amended): the stored ROAS is guarded on sales, not spend: it
equals sales / spend whenever sales is strictly positive — so it is
+Infinity when spend is 0 and sales positive — and equals 0 whenever
sales is nonpositive; in particular it agrees with the claim
(sales / spend) whenever spend is positive and sales nonnegative. -/
theorem C2_roas_amended (header : List String) (rows : List (List RawCell))
    (r : PerformanceRecord) (h : r ∈ (parsedState header rows).searchTerms) :
    r.roas = (if 0 < r.sales then jsDiv r.sales r.spend else .fin 0) ∧
    (0 < r.spend → 0 ≤ r.sales → r.roas = .fin (r.sales / r.spend)) ∧
    (r.spend = 0 → 0 < r.sales → r.roas = .posInf) ∧
    (r.sales ≤ 0 → r.roas = .fin 0) := by
  have h0 := roas_of_mem h
  refine ⟨h0, ?_, ?_, ?_⟩
  · intro hsp hsa
    rcases lt_or_eq_of_le hsa with hlt | heq
    · rw [h0, if_pos hlt]
      simp [jsDiv, hsp.ne']
    · rw [h0, if_neg (by rw [← heq]; exact lt_irrefl 0), ← heq]
      simp
  · intro hsp hsa
    rw [h0, if_pos hsa]
    simp [jsDiv, hsp, hsa]
  · intro hsa
    rw [h0, if_neg (not_lt.mpr hsa)]

/-- The record the analyzer parses from the row (clicks 1, spend 0,
sales 5): its stored ROAS is +Infinity. -/
def zeroSpendRecord : PerformanceRecord :=
  { searchTerm := "", impressions := 0, clicks := 1, spend := 0, sales := 5,
    orders := 0, campaignName := "", roas := .posInf }

/-- C2 witness: the amended statement at the concrete record parsed from
the row (clicks 1, spend 0, sales 5). -/
theorem C2_roas_amended_witness :
    zeroSpendRecord.roas =
      (if 0 < zeroSpendRecord.sales then
        jsDiv zeroSpendRecord.sales zeroSpendRecord.spend
      else .fin 0) ∧
    (0 < zeroSpendRecord.spend → 0 ≤ zeroSpendRecord.sales →
      zeroSpendRecord.roas = .fin (zeroSpendRecord.sales / zeroSpendRecord.spend)) ∧
    (zeroSpendRecord.spend = 0 → 0 < zeroSpendRecord.sales →
      zeroSpendRecord.roas = .posInf) ∧
    (zeroSpendRecord.sales ≤ 0 → zeroSpendRecord.roas = .fin 0) :=
  C2_roas_amended ["Clicks", "Spend", "Sales"]
    [[{ text := "1", num := some 1, date := none },
      { text := "0", num := some 0, date := none },
      { text := "5", num := some 5, date := none }]] zeroSpendRecord (by decide)

/-- C3 (amended): under the fixed configuration, for every accepted
record, negative-keyword and low-efficiency classification are as
claimed, and the harvest rule holds with the record's stored ROAS
(guarded on sales rather than spend), which treats zero spend with
positive sales as +Infinity: harvest iff clicks >= 10, orders >= 3,
sales >= 150, and (spend = 0 or sales / spend >= 2.5).  The three
predicates are evaluated independently per record. -/
theorem C3_classification_amended (header : List String) (rows : List (List RawCell))
    (r : PerformanceRecord) (h : r ∈ (parsedState header rows).searchTerms) :
    (isNegativeKeyword r = true ↔ 10 ≤ r.clicks ∧ 10 ≤ r.spend ∧ r.orders = 0) ∧
    (isHarvest r = true ↔
      10 ≤ r.clicks ∧ 3 ≤ r.orders ∧ 150 ≤ r.sales ∧
        (r.spend = 0 ∨ 5 / 2 ≤ r.sales / r.spend)) ∧
    (isLowRoas r = true ↔ 10 < r.spend ∧ 0 < r.sales ∧ r.sales / r.spend < 5 / 2) := by
  have h0 := roas_of_mem h
  refine ⟨?_, ?_, ?_⟩
  · simp [isNegativeKeyword, NEGATIVE_CLICKS_THRESHOLD, NEGATIVE_SPEND_THRESHOLD, and_assoc]
  · simp only [isHarvest, HARVEST_MIN_CLICKS, HARVEST_MIN_ORDERS, HARVEST_MIN_SALES,
      ROAS_TARGET, Bool.and_eq_true, decide_eq_true_eq, and_assoc]
    constructor
    · rintro ⟨hc, ho, hs, hroas⟩
      refine ⟨hc, ho, hs, ?_⟩
      have hs0 : 0 < r.sales := by linarith
      rw [h0, if_pos hs0] at hroas
      by_cases hsp : r.spend = 0
      · exact Or.inl hsp
      · right
        simp only [jsDiv, if_neg hsp, JsNum.geQ, decide_eq_true_eq] at hroas
        exact hroas
    · rintro ⟨hc, ho, hs, hd⟩
      have hs0 : 0 < r.sales := by linarith
      refine ⟨hc, ho, hs, ?_⟩
      rw [h0, if_pos hs0]
      by_cases hsp : r.spend = 0
      · simp [jsDiv, hsp, hs0, JsNum.geQ]
      · rcases hd with hz | hge
        · exact absurd hz hsp
        · simp only [jsDiv, if_neg hsp, JsNum.geQ, decide_eq_true_eq]
          exact hge
  · simp only [isLowRoas, ROAS_TARGET, Bool.and_eq_true, decide_eq_true_eq, and_assoc]
    constructor
    · rintro ⟨hsp, hgt, hlt⟩
      by_cases hs0 : 0 < r.sales
      · have hspne : r.spend ≠ 0 := by
          intro hz
          rw [hz] at hsp
          norm_num at hsp
        rw [h0, if_pos hs0] at hlt
        simp only [jsDiv, if_neg hspne, JsNum.ltQ, decide_eq_true_eq] at hlt
        exact ⟨hsp, hs0, hlt⟩
      · rw [h0, if_neg hs0] at hgt
        simp [JsNum.gtQ] at hgt
    · rintro ⟨hsp, hs0, hlt⟩
      have hspne : r.spend ≠ 0 := by
        intro hz
        rw [hz] at hsp
        norm_num at hsp
      have hsppos : 0 < r.spend := by
        rcases lt_trichotomy r.spend 0 with hneg | hz | hposq
        · linarith
        · exact absurd hz hspne
        · exact hposq
      rw [h0, if_pos hs0]
      simp only [jsDiv, if_neg hspne, JsNum.gtQ, JsNum.ltQ, decide_eq_true_eq]
      exact ⟨hsp, div_pos hs0 hsppos, hlt⟩

/-- The record the analyzer parses from the row (clicks 12, spend 0,
sales 200, orders 3): a harvest opportunity under the stored ROAS. -/
def zeroSpendHarvestRecord : PerformanceRecord :=
  { searchTerm := "", impressions := 0, clicks := 12, spend := 0, sales := 200,
    orders := 3, campaignName := "", roas := .posInf }

/-- C3 witness: the amended classification at the concrete record parsed
from the row (clicks 12, spend 0, sales 200, orders 3). -/
theorem C3_classification_amended_witness :
    (isNegativeKeyword zeroSpendHarvestRecord = true ↔
      10 ≤ zeroSpendHarvestRecord.clicks ∧ 10 ≤ zeroSpendHarvestRecord.spend ∧
        zeroSpendHarvestRecord.orders = 0) ∧
    (isHarvest zeroSpendHarvestRecord = true ↔
      10 ≤ zeroSpendHarvestRecord.clicks ∧ 3 ≤ zeroSpendHarvestRecord.orders ∧
        150 ≤ zeroSpendHarvestRecord.sales ∧
        (zeroSpendHarvestRecord.spend = 0 ∨
          5 / 2 ≤ zeroSpendHarvestRecord.sales / zeroSpendHarvestRecord.spend)) ∧
    (isLowRoas zeroSpendHarvestRecord = true ↔
      10 < zeroSpendHarvestRecord.spend ∧ 0 < zeroSpendHarvestRecord.sales ∧
        zeroSpendHarvestRecord.sales / zeroSpendHarvestRecord.spend < 5 / 2) :=
  C3_classification_amended ["Clicks", "Spend", "Sales", "Orders"]
    [[{ text := "12", num := some 12, date := none },
      { text := "0", num := some 0, date := none },
      { text := "200", num := some 200, date := none },
      { text := "3", num := some 3, date := none }]] zeroSpendHarvestRecord (by decide)

/-- C5 (amended): the window policy is as claimed except that a
non-positive day count is not reset to 30: the multiplier falls back to 1
but the computed (non-positive) day count is kept.  A span in (0, 365)
extrapolates with multiplier 30 / days, a span of at least 365 resets to
(30, 1), missing bounds give (30, 1), and the multiplier is strictly
positive on every input. -/
theorem C5_window_policy_amended :
    (∀ s e : ℤ,
      (0 < rawDayCount s e → rawDayCount s e < 365 →
        computeWindow (some s) (some e) = (rawDayCount s e, 30 / (rawDayCount s e : ℚ))) ∧
      (365 ≤ rawDayCount s e → computeWindow (some s) (some e) = (30, 1)) ∧
      (rawDayCount s e ≤ 0 → computeWindow (some s) (some e) = (rawDayCount s e, 1))) ∧
    (∀ a : Option ℤ, computeWindow none a = (30, 1) ∧ computeWindow a none = (30, 1)) ∧
    (∀ a b : Option ℤ, 0 < (computeWindow a b).2) := by
  refine ⟨?_, ?_, computeWindow_snd_pos⟩
  · intro s e
    refine ⟨fun h1 h2 => ?_, fun h1 => ?_, fun h1 => ?_⟩ <;>
      simp only [computeWindow] <;> split_ifs with c1 _c2 <;> first | rfl | omega
  · intro a
    refine ⟨rfl, ?_⟩
    rcases a with _ | x
    · rfl
    · rfl

/-- C5 witness: the amended policy applied at concrete bounds — equal
start and end dates give day count 1 and multiplier 30 — and at missing
bounds. -/
theorem C5_window_policy_amended_witness :
    computeWindow (some 0) (some 0) = (rawDayCount 0 0, 30 / (rawDayCount 0 0 : ℚ)) ∧
    computeWindow none none = (30, 1) ∧
    0 < (computeWindow none none).2 :=
  ⟨(C5_window_policy_amended.1 0 0).1 (by decide) (by decide),
    (C5_window_policy_amended.2.1 none).1,
    C5_window_policy_amended.2.2 none none⟩

/-- C7 (amended): numeric cells are coerced with unparsable values
defaulting to 0, but no clamping is applied, so records inherit whatever
sign the cells parse to; whenever every numeric cell of the input parses
to a nonnegative value, every accepted record has nonnegative impressions,
clicks, spend, sales and orders. -/
theorem C7_nonneg_amended (header : List String) (rows : List (List RawCell))
    (hpos : ∀ row ∈ rows, ∀ c ∈ row, ∀ q : ℚ, c.num = some q → 0 ≤ q)
    (r : PerformanceRecord) (h : r ∈ (parsedState header rows).searchTerms) :
    0 ≤ r.impressions ∧ 0 ≤ r.clicks ∧ 0 ≤ r.spend ∧ 0 ≤ r.sales ∧ 0 ≤ r.orders := by
  rcases mem_foldl_stepRow (detectColumns header) rows initState r h with h0 | ⟨row, hrow, rfl⟩
  · simp [initState] at h0
  · have hcell : ∀ o : Option Nat, 0 ≤ numOf (getCell row o) := by
      intro o
      rcases o with _ | i
      · simp [getCell, emptyCell, numOf]
      · have hdis : row.getD i emptyCell = emptyCell ∨ row.getD i emptyCell ∈ row := by
          rcases hgi : row[i]? with _ | c
          · left
            simp [List.getD, hgi]
          · right
            have hm : c ∈ row := List.getElem?_mem hgi
            simp [List.getD, hgi, hm]
        show 0 ≤ numOf (row.getD i emptyCell)
        rcases hdis with he | hm
        · rw [he]
          simp [emptyCell, numOf]
        · rcases hc : (row.getD i emptyCell).num with _ | q
          · simp only [numOf, hc, Option.getD_none]
            norm_num
          · simp only [numOf, hc, Option.getD_some]
            exact hpos row hrow _ hm q hc
    exact ⟨hcell _, hcell _, hcell _, hcell _, hcell _⟩

/-- The record the analyzer parses from the all-nonnegative row
(clicks 3, spend 7). -/
def nonnegRecord : PerformanceRecord :=
  { searchTerm := "", impressions := 0, clicks := 3, spend := 7, sales := 0,
    orders := 0, campaignName := "", roas := .fin 0 }

/-- C7 witness: the conditional nonnegativity at the concrete record
parsed from an all-nonnegative row. -/
theorem C7_nonneg_amended_witness :
    0 ≤ nonnegRecord.impressions ∧ 0 ≤ nonnegRecord.clicks ∧ 0 ≤ nonnegRecord.spend ∧
      0 ≤ nonnegRecord.sales ∧ 0 ≤ nonnegRecord.orders :=
  C7_nonneg_amended ["Clicks", "Spend"]
    [[{ text := "3", num := some 3, date := none },
      { text := "7", num := some 7, date := none }]]
    (by decide) nonnegRecord (by decide)

/-- C4 witness: the formula theorem applied to a concrete one-row report
(12 clicks, 20 dollars spend, no dates). -/
theorem C4_health_score_formula_witness :
    (analyzeParsed (parsedState ["Clicks", "Spend"]
        [[{ text := "12", num := some 12, date := none },
          { text := "20", num := some 20, date := none }]])).healthScore =
      claimHealthScore
        (opportunityPercentageQ (parsedState ["Clicks", "Spend"]
            [[{ text := "12", num := some 12, date := none },
              { text := "20", num := some 20, date := none }]]).searchTerms
          (parsedState ["Clicks", "Spend"]
            [[{ text := "12", num := some 12, date := none },
              { text := "20", num := some 20, date := none }]]).totalSpend
          (computeWindow
            (parsedState ["Clicks", "Spend"]
              [[{ text := "12", num := some 12, date := none },
                { text := "20", num := some 20, date := none }]]).minStartDate
            (parsedState ["Clicks", "Spend"]
              [[{ text := "12", num := some 12, date := none },
                { text := "20", num := some 20, date := none }]]).maxEndDate).2) :=
  C4_health_score_formula _ _ _ rfl

/-- C6 witness: the bounds theorem applied to a concrete report analysis
and a concrete (empty) questionnaire. -/
theorem C6_health_score_bounds_witness :
    (45 ≤ (analyzeParsed (parsedState ["Clicks", "Spend"]
        [[{ text := "12", num := some 12, date := none },
          { text := "20", num := some 20, date := none }]])).healthScore ∧
      (analyzeParsed (parsedState ["Clicks", "Spend"]
        [[{ text := "12", num := some 12, date := none },
          { text := "20", num := some 20, date := none }]])).healthScore ≤ 100) ∧
    (45 ≤ (calculateQuizScore
        { spend := none, acos := none, campaigns := none
          negatives := none, harvest := none, competitor := none }).score ∧
      (calculateQuizScore
        { spend := none, acos := none, campaigns := none
          negatives := none, harvest := none, competitor := none }).score ≤ 100) :=
  ⟨C6_health_score_bounds.1 ["Clicks", "Spend"]
      [[{ text := "12", num := some 12, date := none },
        { text := "20", num := some 20, date := none }]] _ rfl,
    C6_health_score_bounds.2 _⟩

/-- C10 witness: answering the campaigns question with the first table
option versus leaving it unanswered gives the same quiz result. -/
theorem C10_campaigns_noninterference_witness :
    calculateQuizScore
      { spend := none, acos := none, campaigns := some (campaignsOptions.getD 0 (QOption.bare "x"))
        negatives := none, harvest := none, competitor := none } =
    calculateQuizScore
      { spend := none, acos := none, campaigns := none
        negatives := none, harvest := none, competitor := none } :=
  C10_campaigns_noninterference _ _ rfl rfl rfl rfl rfl

end Saddl
